import Mathlib

/-!
Shallow embedding of the deepstream.io record handler
(src/src/record/record-handler.ts) together with proofs about the claims
of the natural-language specification.

Asynchronous callbacks are embedded by making each handler operation a pure
function from its inputs plus the outcomes delivered by the environment
(cache / storage / permission evaluator callbacks) to the list of effects the
operation performs, in one fixed linearisation of the callback schedule
(parameterised where the schedule matters, e.g. `WriteEnv.storageCbFirst`).
Callback closures are represented by identifiers (`Nat`), and the two tables
owned by the handler (`transitions`, `recordRequestsInProgress`) are explicit
state threaded through step functions.
-/

namespace RecordHandlerModel

/-- The record-topic action codes (RECORD_ACTIONS in src/constants) that the
record handler reads or emits on the paths modelled here. -/
inductive RA where
  | CREATEANDUPDATE
  | CREATEANDPATCH
  | UPDATE
  | PATCH
  | ERASE
  | READ
  | HEAD
  | SUBSCRIBECREATEANDREAD
  | SUBSCRIBEANDHEAD
  | SUBSCRIBE
  | UNSUBSCRIBE
  | DELETE
  | DELETE_SUCCESS
  | CREATE
  | READ_RESPONSE
  | HEAD_RESPONSE
  | WRITE_ACKNOWLEDGEMENT
  | RECORD_NOT_FOUND
  | RECORD_LOAD_ERROR
  | RECORD_CREATE_ERROR
  | VERSION_EXISTS
  | INVALID_VERSION
  | INVALID_PATCH_ON_HOTPATH
  | MESSAGE_DENIED
  | MESSAGE_PERMISSION_ERROR
deriving DecidableEq, Repr

/-- Message topic; the record handler only ever sends on TOPIC.RECORD. -/
inductive Topic where
  | RECORD
deriving DecidableEq, Repr

/-- Opaque stand-in for the JSON payloads the handler moves around verbatim.
`ackPair` embeds the two-element JS array `[message.version, error]` used as
the parsedData of a WRITE_ACKNOWLEDGEMENT. -/
inductive JsonVal where
  | emptyObj
  | num (n : Int)
  | str (s : String)
  | ackPair (version : Option Int) (err : Option String)
deriving DecidableEq, Repr

/-- A stored record `{ _v, _d }`; `v` embeds `_v`, `d` embeds `_d`. -/
structure StorageRecord where
  v : Int
  d : Option JsonVal
deriving DecidableEq, Repr

/-- The message envelope, with absent optional JS fields embedded as `none`
or `false`. -/
structure Msg where
  topic : Topic := Topic.RECORD
  action : RA
  name : String := ""
  version : Option Int := none
  path : Option String := none
  parsedData : Option JsonVal := none
  isWriteAck : Bool := false
  correlationId : Option String := none
  originalAction : Option RA := none
deriving DecidableEq, Repr

/-- The sender attributes the handler reads. -/
structure SocketWrapper where
  user : String := ""
  isRemote : Bool := false
deriving DecidableEq, Repr

/-- The two configuration lists the handler consults. -/
structure DeepstreamConfig where
  storageHotPathPrefixes : List String := []
  storageExclusionPrefixes : List String := []
deriving DecidableEq, Repr

/-- Observable effects an operation performs on its collaborators:
messages sent to the originating socket, cache/storage writes, log entries,
broadcasts, subscriptions, permission-evaluator consultations, and the two
continuations into the write path (`transition.add`, `this.update`). -/
inductive Effect where
  | sendMsg (m : Msg) (highPriority : Bool)
  | cacheSet (recordName : String) (record : StorageRecord)
  | storageSet (recordName : String) (record : StorageRecord)
  | logError (tag : String) (info : String)
  | broadcastUpdate (recordName : String) (m : Msg) (noDelay : Bool)
  | subscribeSender (m : Msg)
  | permCheck (user : String) (m : Msg)
  | transitionAdd (recordName : String) (m : Msg)
  | updateCall (m : Msg) (upsert : Bool)
  | callbackInvoke (recordName : String)
deriving DecidableEq, Repr

/-- Outcome delivered by the permission evaluator to `onPermissionResponse`:
the `(error, canPerformAction)` callback arguments. -/
inductive PermOutcome where
  | evalError (e : String)
  | denied
  | allowed
deriving DecidableEq, Repr

/-- The error reply built by `onPermissionResponse` (lines 557-565): topic,
action, originalAction and name, plus the correlationId when the incoming
message carries one. -/
def permFailMsg (message : Msg) (originalAction : RA) (action : RA) : Msg :=
  let msg : Msg :=
    { topic := Topic.RECORD
      action := action
      originalAction := some originalAction
      name := message.name }
  if message.correlationId.isSome then
    { msg with correlationId := message.correlationId }
  else msg

/-- `onPermissionResponse` (lines 546-570): on evaluator error log and send
MESSAGE_PERMISSION_ERROR, on denial send MESSAGE_DENIED, otherwise run the
success callback (represented by its effects). -/
def onPermissionResponse (message : Msg) (originalAction : RA)
    (outcome : PermOutcome) (successEffects : List Effect) : List Effect :=
  match outcome with
  | PermOutcome.evalError e =>
      [Effect.logError "MESSAGE_PERMISSION_ERROR" e,
       Effect.sendMsg (permFailMsg message originalAction RA.MESSAGE_PERMISSION_ERROR) false]
  | PermOutcome.denied =>
      [Effect.sendMsg (permFailMsg message originalAction RA.MESSAGE_DENIED) false]
  | PermOutcome.allowed => successEffects

/-- `permissionAction` (lines 529-538): consult the evaluator with a shallow
copy of the message whose action is the action under check, then continue in
`onPermissionResponse`. -/
def permissionAction (actionToPermission : RA) (message : Msg) (originalAction : RA)
    (sock : SocketWrapper) (outcome : PermOutcome) (successEffects : List Effect) :
    List Effect :=
  Effect.permCheck sock.user { message with action := actionToPermission } ::
    onPermissionResponse message originalAction outcome successEffects

/-- Outcome delivered by `recordRequest` (src/record/record-request) to the
handler: either the completion callback with `(record, recordName)` or the
error callback with `(event, errorMessage, recordName)`. -/
inductive RROutcome where
  | complete (record : Option StorageRecord) (recordName : String)
  | failed (event : RA) (errorMessage : String) (recordName : String)
deriving DecidableEq, Repr

/-- `sendRecord` (lines 575-583). -/
def sendRecordMsg (recordName : String) (record : StorageRecord) : Msg :=
  { topic := Topic.RECORD
    action := RA.READ_RESPONSE
    name := recordName
    version := some record.v
    parsedData := record.d }

/-- `snapshot` (lines 126-158): the message sent to the socket for each
record-request outcome. -/
def snapshot (message : Msg) (outcome : RROutcome) : Msg :=
  match outcome with
  | RROutcome.complete (some record) recordName => sendRecordMsg recordName record
  | RROutcome.complete none _ =>
      { topic := Topic.RECORD
        action := RA.RECORD_NOT_FOUND
        originalAction := some message.action
        name := message.name }
  | RROutcome.failed event _ recordName =>
      { topic := Topic.RECORD
        action := event
        originalAction := some message.action
        name := recordName }

/-- `head` (lines 165-194): the message sent to the socket for each
record-request outcome; version is `_v` on hit and -1 on miss. -/
def head (message : Msg) (outcome : RROutcome) : Msg :=
  match outcome with
  | RROutcome.complete record _ =>
      { topic := Topic.RECORD
        action := RA.HEAD_RESPONSE
        name := message.name
        version := some (match record with | some r => r.v | none => -1) }
  | RROutcome.failed event _ recordName =>
      { topic := Topic.RECORD
        action := event
        originalAction := some message.action
        name := recordName }

/-- Whether `pat` occurs as a contiguous run inside the second list; embeds
the JS test `s.indexOf(pattern) !== -1`. -/
def occursIn (pat : List Char) : List Char → Bool
  | [] => pat.isPrefixOf []
  | c :: rest => pat.isPrefixOf (c :: rest) || occursIn pat rest

/-- JS `recordName.indexOf(pattern) !== -1`. -/
def containsSub (s pattern : String) : Bool :=
  occursIn pattern.data s.data

/-- Modelled from the spec: `isExcluded` lives in src/utils/utils.ts, which is
not under src/. Section 6 of the spec describes `storageExclusionPrefixes` as
a "list of name prefixes that suppress durable-storage writes", so the check
is a prefix match against that list. -/
def isExcluded (xs : List String) (recordName : String) : Bool :=
  xs.any (fun p => p.data.isPrefixOf recordName.data)

/-- Environment of a force-write: the errors the cache and storage `set`
callbacks deliver, and which of the two callbacks arrives first. -/
structure WriteEnv where
  cacheError : Option String := none
  storageError : Option String := none
  storageCbFirst : Bool := true
deriving DecidableEq, Repr

/-- `handleForceWriteAcknowledgement` (lines 334-345): once both tiers have
responded, send WRITE_ACKNOWLEDGEMENT with parsedData `[message.version, error]`. -/
def handleForceWriteAcknowledgement (message : Msg)
    (cacheResponse storageResponse : Bool) (error : Option String) : List Effect :=
  if storageResponse && cacheResponse then
    [Effect.sendMsg
      { topic := Topic.RECORD
        action := RA.WRITE_ACKNOWLEDGEMENT
        name := message.name
        parsedData := some (JsonVal.ackPair message.version error) } true]
  else []

/-- The storage `set` callback inside `forceWrite` (lines 306-314); returns
its effects and the updated `writeError` (`writeError || error || null`). -/
def forceWriteStorageCb (message : Msg) (env : WriteEnv)
    (cacheResponse : Bool) (writeError : Option String) : List Effect × Option String :=
  if message.isWriteAck then
    let we := writeError.or env.storageError
    (handleForceWriteAcknowledgement message cacheResponse true we, we)
  else ([], writeError)

/-- The cache `set` callback inside `forceWrite` (lines 316-327): broadcast on
success, then the write-ack bookkeeping. -/
def forceWriteCacheCb (recordName : String) (message : Msg) (env : WriteEnv)
    (storageResponse : Bool) (writeError : Option String) : List Effect × Option String :=
  let bc : List Effect :=
    if env.cacheError = none then [Effect.broadcastUpdate recordName message false] else []
  if message.isWriteAck then
    let we := writeError.or env.cacheError
    (bc ++ handleForceWriteAcknowledgement message true storageResponse we, we)
  else (bc, writeError)

/-- The two asynchronous callbacks of `forceWrite`, linearised in the order
given by `env.storageCbFirst`. -/
def forceWriteCallbacks (recordName : String) (message : Msg) (env : WriteEnv) :
    List Effect :=
  if env.storageCbFirst then
    let r1 := forceWriteStorageCb message env false none
    let r2 := forceWriteCacheCb recordName message env true r1.2
    r1.1 ++ r2.1
  else
    let r1 := forceWriteCacheCb recordName message env false none
    let r2 := forceWriteStorageCb message env true r1.2
    r1.1 ++ r2.1

/-- `forceWrite` (lines 299-328): build `record = { _v: 0, _d: message.parsedData }`,
issue the storage and cache writes, then run their callbacks. -/
def forceWrite (recordName : String) (message : Msg) (env : WriteEnv) : List Effect :=
  let record : StorageRecord := { v := 0, d := message.parsedData }
  Effect.storageSet recordName record ::
    Effect.cacheSet recordName record ::
      forceWriteCallbacks recordName message env

/-- Result of the loop over `config.storageHotPathPrefixes` in
`createAndUpdate` (lines 257-275). -/
inductive HotDecision where
  | hotPathWrite
  | invalidPatch
  | fallThrough
deriving DecidableEq, Repr

/-- The loop of `createAndUpdate` (lines 257-275), iteration by iteration:
on `recordName.indexOf(pattern) !== -1 && !isPatch` take the hot path; else if
the message is a patch send INVALID_PATCH_ON_HOTPATH; else try the next
configured pattern. -/
def hotPathScan (recordName : String) (isPatch : Bool) : List String → HotDecision
  | [] => HotDecision.fallThrough
  | pattern :: rest =>
    if containsSub recordName pattern && !isPatch then HotDecision.hotPathWrite
    else if isPatch then HotDecision.invalidPatch
    else hotPathScan recordName isPatch rest

/-- `readAndSubscribe` (lines 384-389). -/
def readAndSubscribe (message : Msg) (record : StorageRecord)
    (sock : SocketWrapper) (permRead : PermOutcome) : List Effect :=
  permissionAction RA.READ message message.action sock permRead
    [Effect.subscribeSender { message with action := RA.SUBSCRIBE },
     Effect.sendMsg (sendRecordMsg message.name record) false]

/-- `create` (lines 350-379): cache-write `{ _v: 0, _d: {} }`; on cache error
log and send RECORD_CREATE_ERROR; otherwise run the callback when one was
given, else read-and-subscribe; independently write to storage unless the
name is storage-excluded, logging any storage error. The fixed schedule here
runs the cache callback before the storage callback. -/
def create (cfg : DeepstreamConfig) (message : Msg) (sock : SocketWrapper)
    (hasCallback : Bool) (cacheError storageError : Option String)
    (permRead : PermOutcome) : List Effect :=
  let recordName := message.name
  let record : StorageRecord := { v := 0, d := some JsonVal.emptyObj }
  let issue : List Effect :=
    Effect.cacheSet recordName record ::
      (if !(isExcluded cfg.storageExclusionPrefixes message.name) then
        [Effect.storageSet recordName record]
      else [])
  let cacheCbEffects : List Effect :=
    match cacheError with
    | some _ =>
        [Effect.logError "RECORD_CREATE_ERROR" recordName,
         Effect.sendMsg
           { topic := Topic.RECORD
             action := RA.RECORD_CREATE_ERROR
             originalAction := some message.action
             name := message.name } false]
    | none =>
        if hasCallback then [Effect.callbackInvoke recordName]
        else readAndSubscribe message record sock permRead
  let storageCbEffects : List Effect :=
    if !(isExcluded cfg.storageExclusionPrefixes message.name) then
      match storageError with
      | some e => [Effect.logError "RECORD_CREATE_ERROR" ("storage:" ++ e)]
      | none => []
    else []
  issue ++ cacheCbEffects ++ storageCbEffects

/-- `createOrRead` (lines 212-237): on a found record read-and-subscribe, on a
miss permission CREATE then create (with no extra callback, since
`this.create.bind(this, message, socket)` invoked with no further arguments
leaves `callback` undefined); the error callback is the no-op `() => \x7b\x7d`. -/
def createOrRead (cfg : DeepstreamConfig) (sock : SocketWrapper) (message : Msg)
    (outcome : RROutcome) (permCreate permRead : PermOutcome)
    (cacheError storageError : Option String) : List Effect :=
  match outcome with
  | RROutcome.complete (some record) _ => readAndSubscribe message record sock permRead
  | RROutcome.complete none _ =>
      permissionAction RA.CREATE message message.action sock permCreate
        (create cfg message sock false cacheError storageError permRead)
  | RROutcome.failed _ _ _ => []

/-- `createAndUpdate` (lines 249-290): rewrite the action to PATCH/UPDATE,
scan the hot-path patterns, and either force-write (after CREATE and UPDATE
permissions), reject the patch, add to an existing transition (after
permissioning the effective action), or permission CREATE then UPDATE and
fall through to `update` with upsert = true. -/
def createAndUpdate (cfg : DeepstreamConfig) (sock : SocketWrapper) (message0 : Msg)
    (permFirst permSecond : PermOutcome) (env : WriteEnv)
    (transitionExists : Bool) : List Effect :=
  let recordName := message0.name
  let isPatch := message0.path.isSome
  let originalAction := message0.action
  let message := { message0 with action := if isPatch then RA.PATCH else RA.UPDATE }
  match hotPathScan recordName isPatch cfg.storageHotPathPrefixes with
  | HotDecision.hotPathWrite =>
      permissionAction RA.CREATE message originalAction sock permFirst
        (permissionAction RA.UPDATE message originalAction sock permSecond
          (forceWrite recordName message env))
  | HotDecision.invalidPatch =>
      [Effect.sendMsg
        { topic := Topic.RECORD
          action := RA.INVALID_PATCH_ON_HOTPATH
          originalAction := some message.action
          name := recordName } false]
  | HotDecision.fallThrough =>
      if transitionExists then
        permissionAction message.action message originalAction sock permFirst
          [Effect.transitionAdd recordName message]
      else
        permissionAction RA.CREATE message originalAction sock permFirst
          (permissionAction RA.UPDATE message originalAction sock permSecond
            [Effect.updateCall message true])

/-- State of the in-flight-requests table for one record name, instrumented
with observation logs: `queue` is `recordRequestsInProgress[name]` (`none`
embeds an absent key), `invokedNow` the callbacks `runWhenRecordStable`
invoked immediately, `invokedDeferred` the callbacks `removeRecordRequest`
popped and invoked, `enqueued` the callbacks appended for later, and
`removeHits` the number of `removeRecordRequest` calls that found a non-empty
queue. Callbacks are identified by `Nat`. -/
structure GateState where
  queue : Option (List Nat)
  invokedNow : List Nat
  invokedDeferred : List Nat
  enqueued : List Nat
  removeHits : Nat
deriving DecidableEq, Repr

/-- `runWhenRecordStable` (lines 468-478): when the queue is absent or empty,
install an empty queue and invoke the callback immediately; otherwise push it. -/
def runWhenRecordStable (s : GateState) (cb : Nat) : GateState :=
  match s.queue with
  | none => { s with queue := some [], invokedNow := s.invokedNow ++ [cb] }
  | some [] => { s with queue := some [], invokedNow := s.invokedNow ++ [cb] }
  | some (c :: cs) =>
      { s with queue := some ((c :: cs) ++ [cb]), enqueued := s.enqueued ++ [cb] }

/-- `removeRecordRequest` (lines 448-460): no-op when the queue is absent,
delete the entry when it is empty, otherwise splice off the head callback and
invoke it. -/
def removeRecordRequest (s : GateState) : GateState :=
  match s.queue with
  | none => s
  | some [] => { s with queue := none }
  | some (c :: cs) =>
      { s with
        queue := some cs
        invokedDeferred := s.invokedDeferred ++ [c]
        removeHits := s.removeHits + 1 }

/-- One call into the Stability Gate for a fixed record name. -/
inductive GateOp where
  | run (cb : Nat)
  | remove
deriving DecidableEq, Repr

/-- Dispatch one gate call. -/
def gateStep (s : GateState) : GateOp → GateState
  | GateOp.run cb => runWhenRecordStable s cb
  | GateOp.remove => removeRecordRequest s

/-- Run a sequence of gate calls. -/
def execGate : List GateOp → GateState → GateState
  | [], s => s
  | op :: rest, s => execGate rest (gateStep s op)

/-- Initial gate state whose queue already holds `q0` (the queue contents an
in-flight record request has produced). -/
def gateInit (q0 : List Nat) : GateState :=
  { queue := some q0
    invokedNow := []
    invokedDeferred := []
    enqueued := []
    removeHits := 0 }

/-- Contents of a possibly-absent queue. -/
def queueList : Option (List Nat) → List Nat
  | none => []
  | some l => l

/-- The callback identifiers carried by the `run` calls of a gate-call
sequence, in call order. -/
def runCbs : List GateOp → List Nat
  | [] => []
  | GateOp.run cb :: rest => cb :: runCbs rest
  | GateOp.remove :: rest => runCbs rest

/-- Every callback identifier a gate state knows about, as a multiset. -/
def gateMultiset (s : GateState) : Multiset Nat :=
  (s.invokedNow : Multiset Nat) + (s.invokedDeferred : Multiset Nat) +
    (queueList s.queue : Multiset Nat)

/-- State of the `transitions` table: an association list from record name to
an opaque transition identifier, plus a source of fresh identifiers. -/
structure TransState where
  table : List (String × Nat)
  nextId : Nat
deriving DecidableEq, Repr

/-- `this.transitions[recordName]` on an association list. -/
def lookupTable : List (String × Nat) → String → Option Nat
  | [], _ => none
  | (k, v) :: rest, recordName =>
      if k = recordName then some v else lookupTable rest recordName

/-- `delete this.transitions[recordName]` on an association list. -/
def eraseTable (t : List (String × Nat)) (recordName : String) :
    List (String × Nat) :=
  t.filter (fun p => p.1 != recordName)

/-- The effect of `update` (lines 395-423) on the transitions table: a remote
message only broadcasts; an existing transition absorbs the message (via
`sendVersionExists` or `add`) leaving the table unchanged; otherwise a new
transition is created and stored under the record name. -/
def transitionsAfterUpdate (s : TransState) (recordName : String)
    (isRemote hasVer : Bool) : TransState :=
  if isRemote then s
  else
    match lookupTable s.table recordName, hasVer with
    | some _, true => s
    | some _, false => s
    | none, _ =>
        { table := (recordName, s.nextId) :: s.table, nextId := s.nextId + 1 }

/-- `transitionComplete` (lines 437-439). -/
def transitionComplete (s : TransState) (recordName : String) : TransState :=
  { s with table := eraseTable s.table recordName }

/-- The table effect shared by `delete` (lines 484-494) and `remoteDelete`
(lines 503-512): destroy and remove any existing transition. -/
def destroyTransition (s : TransState) (recordName : String) : TransState :=
  if (lookupTable s.table recordName).isSome then
    { s with table := eraseTable s.table recordName }
  else s

/-- One handler operation that touches the transitions table. -/
inductive TransOp where
  | upd (recordName : String) (isRemote hasVer : Bool)
  | complete (recordName : String)
  | del (recordName : String)
  | remoteDel (recordName : String)
deriving DecidableEq, Repr

/-- Dispatch one table-touching operation. -/
def transStep (s : TransState) : TransOp → TransState
  | TransOp.upd n r h => transitionsAfterUpdate s n r h
  | TransOp.complete n => transitionComplete s n
  | TransOp.del n => destroyTransition s n
  | TransOp.remoteDel n => destroyTransition s n

/-- Run a sequence of table-touching operations. -/
def execTrans : List TransOp → TransState → TransState
  | [], s => s
  | op :: rest, s => execTrans rest (transStep s op)

/-- The handler starts with an empty transitions table (constructor, line 44). -/
def transInit : TransState := { table := [], nextId := 0 }

/-- A CREATEANDUPDATE wire message for the hot-path examples: version 5
supplied, payload 7, no path. -/
def msgHot : Msg :=
  { action := RA.CREATEANDUPDATE
    name := "hot/x"
    version := some 5
    parsedData := some (JsonVal.num 7) }

/-- Hot-path configuration whose single pattern also appears in the
storage-exclusion list. -/
def cfgHotExcluded : DeepstreamConfig :=
  { storageHotPathPrefixes := ["hot/"], storageExclusionPrefixes := ["hot/"] }

/-- Hot-path configuration with one configured pattern. -/
def cfgHotOnly : DeepstreamConfig := { storageHotPathPrefixes := ["hot/"] }

/-- A CREATEANDPATCH wire message whose name matches no hot-path pattern. -/
def msgColdPatch : Msg :=
  { action := RA.CREATEANDPATCH
    name := "cold/1"
    path := some "x"
    version := some 2
    parsedData := some (JsonVal.num 3) }

/-- A message carrying a correlationId, for the permissioning witness. -/
def msgWithCorrelation : Msg :=
  { action := RA.UPDATE, name := "rec/1", correlationId := some "cid-1" }

/-- A gate state with an absent queue. -/
def gateAbsent : GateState :=
  { queue := none
    invokedNow := []
    invokedDeferred := []
    enqueued := []
    removeHits := 0 }

/-- A gate state whose queue holds two deferred callbacks. -/
def gateTwo : GateState :=
  { queue := some [1, 2]
    invokedNow := []
    invokedDeferred := []
    enqueued := []
    removeHits := 0 }

/-- Gate-call sequence for the C6 witness. -/
def gateOpsW : List GateOp :=
  [GateOp.run 3, GateOp.remove, GateOp.run 4, GateOp.remove, GateOp.remove,
   GateOp.remove]

/-- Every effect `handleForceWriteAcknowledgement` emits is the
WRITE_ACKNOWLEDGEMENT carrying `[message.version, error]`. -/
theorem mem_handleAck {message : Msg} {cr sr : Bool} {err : Option String}
    {x : Effect} (hx : x ∈ handleForceWriteAcknowledgement message cr sr err) :
    x = Effect.sendMsg
      { topic := Topic.RECORD
        action := RA.WRITE_ACKNOWLEDGEMENT
        name := message.name
        parsedData := some (JsonVal.ackPair message.version err) } true := by
  unfold handleForceWriteAcknowledgement at hx
  split at hx
  · simpa using hx
  · simp at hx

/-- Every effect of the storage callback of a force-write is a
WRITE_ACKNOWLEDGEMENT carrying the message version. -/
theorem mem_forceWriteStorageCb {message : Msg} {env : WriteEnv} {cr : Bool}
    {we : Option String} {x : Effect}
    (hx : x ∈ (forceWriteStorageCb message env cr we).1) :
    ∃ e, x = Effect.sendMsg
      { topic := Topic.RECORD
        action := RA.WRITE_ACKNOWLEDGEMENT
        name := message.name
        parsedData := some (JsonVal.ackPair message.version e) } true := by
  cases hw : message.isWriteAck with
  | false => simp [forceWriteStorageCb, hw] at hx
  | true =>
      simp only [forceWriteStorageCb, hw, if_true] at hx
      exact ⟨_, mem_handleAck hx⟩

/-- Every effect of the cache callback of a force-write is the broadcast or a
WRITE_ACKNOWLEDGEMENT carrying the message version. -/
theorem mem_forceWriteCacheCb {recordName : String} {message : Msg}
    {env : WriteEnv} {sr : Bool} {we : Option String} {x : Effect}
    (hx : x ∈ (forceWriteCacheCb recordName message env sr we).1) :
    x = Effect.broadcastUpdate recordName message false ∨
      ∃ e, x = Effect.sendMsg
        { topic := Topic.RECORD
          action := RA.WRITE_ACKNOWLEDGEMENT
          name := message.name
          parsedData := some (JsonVal.ackPair message.version e) } true := by
  cases hw : message.isWriteAck with
  | false =>
      rcases hb : env.cacheError with _ | ce <;>
        simp [forceWriteCacheCb, hw, hb] at hx
      exact Or.inl hx
  | true =>
      rcases hb : env.cacheError with _ | ce <;>
        simp [forceWriteCacheCb, hw, hb] at hx
      · rcases hx with hx1 | hx2
        · exact Or.inl hx1
        · exact Or.inr ⟨_, mem_handleAck hx2⟩
      · exact Or.inr ⟨_, mem_handleAck hx⟩

/-- Every callback effect of a force-write is the broadcast or a
WRITE_ACKNOWLEDGEMENT carrying the message version. -/
theorem mem_forceWriteCallbacks {recordName : String} {message : Msg}
    {env : WriteEnv} {x : Effect}
    (hx : x ∈ forceWriteCallbacks recordName message env) :
    x = Effect.broadcastUpdate recordName message false ∨
      ∃ e, x = Effect.sendMsg
        { topic := Topic.RECORD
          action := RA.WRITE_ACKNOWLEDGEMENT
          name := message.name
          parsedData := some (JsonVal.ackPair message.version e) } true := by
  cases ho : env.storageCbFirst with
  | false =>
      simp only [forceWriteCallbacks, ho, Bool.false_eq_true, if_false] at hx
      rcases List.mem_append.mp hx with hx1 | hx2
      · exact mem_forceWriteCacheCb hx1
      · rcases mem_forceWriteStorageCb hx2 with ⟨e, he⟩
        exact Or.inr ⟨e, he⟩
  | true =>
      simp only [forceWriteCallbacks, ho, if_true] at hx
      rcases List.mem_append.mp hx with hx1 | hx2
      · rcases mem_forceWriteStorageCb hx1 with ⟨e, he⟩
        exact Or.inr ⟨e, he⟩
      · exact mem_forceWriteCacheCb hx2

/-- C1 (amended): the record value force-written to both cache and storage by
a hot-path CREATE_AND_UPDATE always carries version 0, regardless of any
version supplied in the message; the supplied version appears only in the
WRITE_ACKNOWLEDGEMENT payload. -/
theorem c1_force_write_always_version_zero (recordName : String) (message : Msg)
    (env : WriteEnv) :
    Effect.storageSet recordName { v := 0, d := message.parsedData } ∈
        forceWrite recordName message env
    ∧ Effect.cacheSet recordName { v := 0, d := message.parsedData } ∈
        forceWrite recordName message env
    ∧ (∀ n r, Effect.storageSet n r ∈ forceWrite recordName message env → r.v = 0)
    ∧ (∀ n r, Effect.cacheSet n r ∈ forceWrite recordName message env → r.v = 0)
    ∧ (∀ m hp, Effect.sendMsg m hp ∈ forceWrite recordName message env →
        ∃ e, m.parsedData = some (JsonVal.ackPair message.version e)) := by
  refine ⟨by simp [forceWrite], by simp [forceWrite], ?_, ?_, ?_⟩
  · intro n r h
    simp [forceWrite] at h
    rcases h with ⟨_, hr⟩ | h
    · rw [hr]
    · rcases mem_forceWriteCallbacks h with h1 | ⟨e, h2⟩
      · simp at h1
      · simp at h2
  · intro n r h
    simp [forceWrite] at h
    rcases h with ⟨_, hr⟩ | h
    · rw [hr]
    · rcases mem_forceWriteCallbacks h with h1 | ⟨e, h2⟩
      · simp at h1
      · simp at h2
  · intro m hp h
    simp [forceWrite] at h
    rcases mem_forceWriteCallbacks h with h1 | ⟨e, h2⟩
    · simp at h1
    · cases h2
      exact ⟨e, rfl⟩

/-- C1 witness: the amended theorem applied at the concrete hot-path message
`msgHot` (supplied version 5), discharging a membership hypothesis there. -/
theorem c1_witness :
    Effect.cacheSet "hot/x" { v := 0, d := some (JsonVal.num 7) } ∈
      forceWrite "hot/x" msgHot {}
    ∧ ({ v := 0, d := some (JsonVal.num 7) } : StorageRecord).v = 0 :=
  ⟨(c1_force_write_always_version_zero "hot/x" msgHot {}).2.1,
   (c1_force_write_always_version_zero "hot/x" msgHot {}).2.2.2.1 "hot/x" _
     (c1_force_write_always_version_zero "hot/x" msgHot {}).2.1⟩

/-- C1 counterexample: the message `msgHot` supplies version 5, yet the record
force-written to cache carries version 0, and no write at version 5 occurs:
the claim that the written value carries the supplied version is false. -/
theorem c1_counterexample :
    msgHot.version = some 5
    ∧ Effect.cacheSet "hot/x" { v := 0, d := some (JsonVal.num 7) } ∈
        forceWrite "hot/x" msgHot {}
    ∧ Effect.cacheSet "hot/x" { v := 5, d := some (JsonVal.num 7) } ∉
        forceWrite "hot/x" msgHot {}
    ∧ Effect.storageSet "hot/x" { v := 5, d := some (JsonVal.num 7) } ∉
        forceWrite "hot/x" msgHot {} := by decide

/-- C2: evaluation of `createAndUpdate` at the failing input. With hot-path
patterns `["hot/"]`, a CREATE_AND_PATCH on the name `"cold/1"` — which does
not match the configured pattern — is answered with
INVALID_PATCH_ON_HOTPATH instead of being routed to the Transition/update
path: the `else if (isPatch)` branch of the pattern loop fires on the first
iteration irrespective of the match. -/
theorem c2_patch_rejected_without_match :
    containsSub "cold/1" "hot/" = false
    ∧ createAndUpdate cfgHotOnly {} msgColdPatch PermOutcome.allowed
        PermOutcome.allowed {} false =
      [Effect.sendMsg
        { topic := Topic.RECORD
          action := RA.INVALID_PATCH_ON_HOTPATH
          originalAction := some RA.PATCH
          name := "cold/1" } false] := by decide

/-- C3 (amended): `create` never writes to durable storage for a
storage-excluded name, but the hot-path `forceWrite` issues its storage write
unconditionally, storage-excluded names included. -/
theorem c3_storage_exclusion (cfg : DeepstreamConfig) (message : Msg)
    (sock : SocketWrapper) (hasCallback : Bool)
    (cacheError storageError : Option String) (permRead : PermOutcome) :
    (isExcluded cfg.storageExclusionPrefixes message.name = true →
      ∀ n r, Effect.storageSet n r ∉
        create cfg message sock hasCallback cacheError storageError permRead)
    ∧ (∀ recordName env,
        Effect.storageSet recordName { v := 0, d := message.parsedData } ∈
          forceWrite recordName message env) := by
  constructor
  · intro hex n r h
    rcases cacheError with _ | ce <;> rcases permRead with pe | _ | _ <;>
      cases hasCallback <;>
      simp [create, hex, readAndSubscribe, permissionAction,
        onPermissionResponse, permFailMsg] at h
  · intro recordName env
    simp [forceWrite]

/-- C3 witness: the amended theorem applied at a concrete excluded name,
discharging the exclusion hypothesis there. -/
theorem c3_witness :
    Effect.storageSet "hot/x" { v := 0, d := some JsonVal.emptyObj } ∉
      create cfgHotExcluded { action := RA.CREATE, name := "hot/x" } {} false
        none none PermOutcome.allowed :=
  (c3_storage_exclusion cfgHotExcluded { action := RA.CREATE, name := "hot/x" }
      {} false none none PermOutcome.allowed).1 (by decide) "hot/x" _

/-- C3 counterexample: with `"hot/"` both a hot-path pattern and a
storage-exclusion entry, the hot-path write of a CREATE_AND_UPDATE on the
excluded name `"hot/x"` still invokes the durable storage set: the claim that
no handler operation ever writes an excluded name to storage is false. -/
theorem c3_counterexample :
    isExcluded cfgHotExcluded.storageExclusionPrefixes "hot/x" = true
    ∧ Effect.storageSet "hot/x" { v := 0, d := some (JsonVal.num 7) } ∈
        createAndUpdate cfgHotExcluded {} msgHot PermOutcome.allowed
          PermOutcome.allowed {} false := by decide

/-- C4 (amended): a record-request failure is surfaced to the sender as the
corresponding error-action message by the READ snapshot path and by the HEAD
path, while `createOrRead` (SUBSCRIBE_CREATE_AND_READ) installs a no-op error
callback and surfaces nothing. -/
theorem c4_load_error_surfacing (message : Msg) (event : RA)
    (errorMessage recordName : String) (cfg : DeepstreamConfig)
    (sock : SocketWrapper) (permCreate permRead : PermOutcome)
    (cacheError storageError : Option String) :
    snapshot message (RROutcome.failed event errorMessage recordName) =
      { topic := Topic.RECORD
        action := event
        originalAction := some message.action
        name := recordName }
    ∧ head message (RROutcome.failed event errorMessage recordName) =
      { topic := Topic.RECORD
        action := event
        originalAction := some message.action
        name := recordName }
    ∧ createOrRead cfg sock message
        (RROutcome.failed event errorMessage recordName) permCreate permRead
        cacheError storageError = [] :=
  ⟨rfl, rfl, rfl⟩

/-- C4 counterexample: a concrete SUBSCRIBE_CREATE_AND_READ whose record
request fails with RECORD_LOAD_ERROR produces no effect at all — in
particular no error message reaches the sender — so the claim that all three
read-bearing operations surface get failures is false. -/
theorem c4_counterexample :
    createOrRead {} {} { action := RA.SUBSCRIBECREATEANDREAD, name := "r/1" }
      (RROutcome.failed RA.RECORD_LOAD_ERROR "storage error" "r/1")
      PermOutcome.allowed PermOutcome.allowed none none = [] := rfl

/-- C9: a HEAD request whose record request completes without a load error is
answered with HEAD_RESPONSE carrying the loaded record version on a hit and
-1 on a miss. -/
theorem c9_head_version (message : Msg) (recordName : String) :
    (∀ record : StorageRecord,
      head message (RROutcome.complete (some record) recordName) =
        { topic := Topic.RECORD
          action := RA.HEAD_RESPONSE
          name := message.name
          version := some record.v })
    ∧ head message (RROutcome.complete none recordName) =
        { topic := Topic.RECORD
          action := RA.HEAD_RESPONSE
          name := message.name
          version := some (-1) } :=
  ⟨fun _ => rfl, rfl⟩

/-- C10: a READ snapshot whose load completes with no record found is answered
with RECORD_NOT_FOUND carrying the record name and, as originalAction, the
action of the original READ message. -/
theorem c10_snapshot_not_found (message : Msg) (recordName : String) :
    snapshot message (RROutcome.complete none recordName) =
      { topic := Topic.RECORD
        action := RA.RECORD_NOT_FOUND
        originalAction := some message.action
        name := message.name } := rfl

/-- C5: `runWhenRecordStable` invokes the callback immediately and installs an
empty queue when the queue is absent or empty, and otherwise appends the
callback without invoking it; `removeRecordRequest` is a no-op when the queue
is absent, deletes the table entry when the queue is empty, and otherwise
removes exactly the head callback and invokes it. -/
theorem c5_gate_operations (s : GateState) (cb : Nat) :
    ((s.queue = none ∨ s.queue = some []) →
      runWhenRecordStable s cb =
        { s with queue := some [], invokedNow := s.invokedNow ++ [cb] })
    ∧ (∀ c cs, s.queue = some (c :: cs) →
      runWhenRecordStable s cb =
        { s with
          queue := some ((c :: cs) ++ [cb])
          enqueued := s.enqueued ++ [cb] })
    ∧ (s.queue = none → removeRecordRequest s = s)
    ∧ (s.queue = some [] → removeRecordRequest s = { s with queue := none })
    ∧ (∀ c cs, s.queue = some (c :: cs) →
      removeRecordRequest s =
        { s with
          queue := some cs
          invokedDeferred := s.invokedDeferred ++ [c]
          removeHits := s.removeHits + 1 }) := by
  refine ⟨?_, ?_, ?_, ?_, ?_⟩
  · rintro (h | h) <;> simp [runWhenRecordStable, h]
  · intro c cs h
    simp [runWhenRecordStable, h]
  · intro h
    simp [removeRecordRequest, h]
  · intro h
    simp [removeRecordRequest, h]
  · intro c cs h
    simp [removeRecordRequest, h]

/-- C5 witness: the operations applied at an absent queue and at a two-element
queue, discharging the queue-shape hypotheses there. -/
theorem c5_witness :
    runWhenRecordStable gateAbsent 3 =
      { gateAbsent with queue := some [], invokedNow := [3] }
    ∧ removeRecordRequest gateTwo =
      { gateTwo with
        queue := some [2]
        invokedDeferred := [1]
        removeHits := 1 } :=
  ⟨(c5_gate_operations gateAbsent 3).1 (Or.inl rfl),
   (c5_gate_operations gateTwo 0).2.2.2.2 1 [2] rfl⟩

/-- C8: a permission check consults the evaluator with a shallow copy of the
message whose action is the checked action; on denial the sender receives
MESSAGE_DENIED carrying the original action and the correlationId exactly
when the message has one; on evaluator error the error is logged and the
sender receives MESSAGE_PERMISSION_ERROR; in both failure cases the success
continuation contributes nothing, and on success it runs unchanged. -/
theorem c8_permission_gate (sock : SocketWrapper) (message : Msg)
    (toPerm originalAction : RA) (success : List Effect) :
    (∀ outcome, ∃ rest,
      permissionAction toPerm message originalAction sock outcome success =
        Effect.permCheck sock.user { message with action := toPerm } :: rest)
    ∧ (∀ c, message.correlationId = some c →
      onPermissionResponse message originalAction PermOutcome.denied success =
        [Effect.sendMsg
          { topic := Topic.RECORD
            action := RA.MESSAGE_DENIED
            originalAction := some originalAction
            name := message.name
            correlationId := some c } false])
    ∧ (message.correlationId = none →
      onPermissionResponse message originalAction PermOutcome.denied success =
        [Effect.sendMsg
          { topic := Topic.RECORD
            action := RA.MESSAGE_DENIED
            originalAction := some originalAction
            name := message.name } false])
    ∧ (∀ e c, message.correlationId = some c →
      onPermissionResponse message originalAction (PermOutcome.evalError e)
          success =
        [Effect.logError "MESSAGE_PERMISSION_ERROR" e,
         Effect.sendMsg
          { topic := Topic.RECORD
            action := RA.MESSAGE_PERMISSION_ERROR
            originalAction := some originalAction
            name := message.name
            correlationId := some c } false])
    ∧ (∀ e, message.correlationId = none →
      onPermissionResponse message originalAction (PermOutcome.evalError e)
          success =
        [Effect.logError "MESSAGE_PERMISSION_ERROR" e,
         Effect.sendMsg
          { topic := Topic.RECORD
            action := RA.MESSAGE_PERMISSION_ERROR
            originalAction := some originalAction
            name := message.name } false])
    ∧ onPermissionResponse message originalAction PermOutcome.allowed success =
        success := by
  refine ⟨fun outcome => ⟨_, rfl⟩, ?_, ?_, ?_, ?_, rfl⟩
  · intro c h
    simp [onPermissionResponse, permFailMsg, h]
  · intro h
    simp [onPermissionResponse, permFailMsg, h]
  · intro e c h
    simp [onPermissionResponse, permFailMsg, h]
  · intro e h
    simp [onPermissionResponse, permFailMsg, h]

/-- C8 witness: the denial branch applied at a concrete message carrying a
correlationId, discharging the correlationId hypothesis there. -/
theorem c8_witness :
    onPermissionResponse msgWithCorrelation RA.CREATEANDUPDATE
        PermOutcome.denied [] =
      [Effect.sendMsg
        { topic := Topic.RECORD
          action := RA.MESSAGE_DENIED
          originalAction := some RA.CREATEANDUPDATE
          name := "rec/1"
          correlationId := some "cid-1" } false] :=
  (c8_permission_gate {} msgWithCorrelation RA.CREATE RA.CREATEANDUPDATE []).2.1
    "cid-1" rfl

/-- Coercion of a list append into a multiset sum. -/
theorem coeAppend (a b : List Nat) :
    ((a ++ b : List Nat) : Multiset Nat) = (a : Multiset Nat) + (b : Multiset Nat) :=
  Multiset.coe_add a b

/-- The callback identifiers of a `run`-headed call sequence, as a multiset. -/
theorem runCbs_cons_run (cb : Nat) (rest : List GateOp) :
    ((runCbs (GateOp.run cb :: rest) : List Nat) : Multiset Nat) =
      (([cb] : List Nat) : Multiset Nat) + (runCbs rest : Multiset Nat) :=
  coeAppend [cb] (runCbs rest)

/-- A `remove`-headed call sequence carries no callback identifiers of its own. -/
theorem runCbs_cons_remove (rest : List GateOp) :
    ((runCbs (GateOp.remove :: rest) : List Nat) : Multiset Nat) =
      (runCbs rest : Multiset Nat) := rfl

/-- One gate call preserves the equation relating the deferred-invocation log,
the queue contents and the enqueue log. -/
theorem gateStep_deferred (s : GateState) (op : GateOp) (pre : List Nat)
    (h : s.invokedDeferred ++ queueList s.queue = pre ++ s.enqueued) :
    (gateStep s op).invokedDeferred ++ queueList (gateStep s op).queue =
      pre ++ (gateStep s op).enqueued := by
  cases op with
  | run cb =>
      rcases hq : s.queue with _ | ⟨_ | ⟨c, cs⟩⟩ <;>
        rw [hq] at h <;> simp only [queueList] at h <;>
        simp only [gateStep, runWhenRecordStable, hq, queueList]
      · exact h
      · exact h
      · calc s.invokedDeferred ++ ((c :: cs) ++ [cb])
            = (s.invokedDeferred ++ (c :: cs)) ++ [cb] := by
              rw [List.append_assoc]
          _ = (pre ++ s.enqueued) ++ [cb] := by rw [h]
          _ = pre ++ (s.enqueued ++ [cb]) := by rw [List.append_assoc]
  | remove =>
      rcases hq : s.queue with _ | ⟨_ | ⟨c, cs⟩⟩ <;>
        rw [hq] at h <;> simp only [queueList] at h <;>
        simp only [gateStep, removeRecordRequest, hq, queueList]
      · exact h
      · exact h
      · rw [List.append_assoc]
        exact h

/-- One gate call preserves the equation between the length of the
deferred-invocation log and the non-empty-queue remove counter. -/
theorem gateStep_hits (s : GateState) (op : GateOp)
    (h : s.invokedDeferred.length = s.removeHits) :
    (gateStep s op).invokedDeferred.length = (gateStep s op).removeHits := by
  cases op with
  | run cb =>
      rcases hq : s.queue with _ | ⟨_ | ⟨c, cs⟩⟩ <;>
        simp [gateStep, runWhenRecordStable, hq, h]
  | remove =>
      rcases hq : s.queue with _ | ⟨_ | ⟨c, cs⟩⟩ <;>
        simp [gateStep, removeRecordRequest, hq, h]

/-- One gate call adds exactly its own `run` identifier (if any) to the
multiset of callbacks the state knows about. -/
theorem gateStep_multiset (s : GateState) (op : GateOp) :
    gateMultiset (gateStep s op) =
      gateMultiset s + ((runCbs [op] : List Nat) : Multiset Nat) := by
  cases op with
  | run cb =>
      rcases hq : s.queue with _ | ⟨_ | ⟨c, cs⟩⟩ <;>
        simp only [gateStep, runWhenRecordStable, hq, gateMultiset, queueList,
          runCbs, coeAppend] <;>
        abel
  | remove =>
      rcases hq : s.queue with _ | ⟨_ | ⟨c, cs⟩⟩ <;>
        simp only [gateStep, removeRecordRequest, hq, gateMultiset, queueList,
          runCbs, coeAppend]
      · abel
      · abel
      · rw [show ((c :: cs : List Nat) : Multiset Nat) =
            (([c] : List Nat) : Multiset Nat) + (cs : Multiset Nat) from
            coeAppend [c] cs]
        abel

/-- Running a gate-call sequence preserves the FIFO equation. -/
theorem execGate_deferred (ops : List GateOp) (s : GateState) (pre : List Nat)
    (h : s.invokedDeferred ++ queueList s.queue = pre ++ s.enqueued) :
    (execGate ops s).invokedDeferred ++ queueList (execGate ops s).queue =
      pre ++ (execGate ops s).enqueued := by
  induction ops generalizing s with
  | nil => exact h
  | cons op rest ih => exact ih (gateStep s op) (gateStep_deferred s op pre h)

/-- Running a gate-call sequence preserves the hit-count equation. -/
theorem execGate_hits (ops : List GateOp) (s : GateState)
    (h : s.invokedDeferred.length = s.removeHits) :
    (execGate ops s).invokedDeferred.length = (execGate ops s).removeHits := by
  induction ops generalizing s with
  | nil => exact h
  | cons op rest ih => exact ih (gateStep s op) (gateStep_hits s op h)

/-- Running a gate-call sequence adds exactly its `run` identifiers to the
multiset of callbacks the state knows about. -/
theorem execGate_multiset (ops : List GateOp) (s : GateState) :
    gateMultiset (execGate ops s) =
      gateMultiset s + ((runCbs ops : List Nat) : Multiset Nat) := by
  induction ops generalizing s with
  | nil => simp [execGate, runCbs]
  | cons op rest ih =>
      cases op with
      | run cb =>
          simp only [execGate]
          rw [ih (gateStep s (GateOp.run cb)), gateStep_multiset, runCbs_cons_run]
          abel
      | remove =>
          simp only [execGate]
          rw [ih (gateStep s GateOp.remove), gateStep_multiset, runCbs_cons_remove]
          abel

/-- C6: over any sequence of `runWhenRecordStable` / `removeRecordRequest`
calls on one record name (starting from a queue holding `q0`), the
deferred-invocation log followed by the residual queue equals the initial
queue followed by the enqueue log — so deferred callbacks are invoked
strictly in enqueue order (the log is a prefix of that sequence); exactly one
deferred callback is invoked per `removeRecordRequest` call that finds a
non-empty queue; and when all callback identifiers are distinct no callback
is ever invoked twice. -/
theorem c6_gate_fifo (ops : List GateOp) (q0 : List Nat) :
    ((execGate ops (gateInit q0)).invokedDeferred ++
        queueList (execGate ops (gateInit q0)).queue =
      q0 ++ (execGate ops (gateInit q0)).enqueued)
    ∧ ((execGate ops (gateInit q0)).invokedDeferred <+:
        q0 ++ (execGate ops (gateInit q0)).enqueued)
    ∧ ((execGate ops (gateInit q0)).invokedDeferred.length =
        (execGate ops (gateInit q0)).removeHits)
    ∧ ((q0 ++ runCbs ops).Nodup →
        ((execGate ops (gateInit q0)).invokedNow ++
          (execGate ops (gateInit q0)).invokedDeferred).Nodup) := by
  have hbase : (gateInit q0).invokedDeferred ++ queueList (gateInit q0).queue =
      q0 ++ (gateInit q0).enqueued := by
    simp [gateInit, queueList]
  have h1 := execGate_deferred ops (gateInit q0) q0 hbase
  refine ⟨h1, ⟨queueList (execGate ops (gateInit q0)).queue, h1⟩,
    execGate_hits ops (gateInit q0) (by simp [gateInit]), ?_⟩
  intro hnd
  have hm := execGate_multiset ops (gateInit q0)
  have hinit : gateMultiset (gateInit q0) = (q0 : Multiset Nat) := by
    simp [gateMultiset, gateInit, queueList]
  rw [hinit] at hm
  have hco : (((execGate ops (gateInit q0)).invokedNow ++
        (execGate ops (gateInit q0)).invokedDeferred ++
        queueList (execGate ops (gateInit q0)).queue : List Nat) : Multiset Nat) =
      ((q0 ++ runCbs ops : List Nat) : Multiset Nat) := by
    rw [coeAppend, coeAppend, coeAppend]
    exact hm
  have hperm := Multiset.coe_eq_coe.mp hco
  have hnodup2 := (hperm.nodup_iff).mpr hnd
  exact (List.sublist_append_left _ _).nodup hnodup2

/-- C6 witness: the theorem applied at a concrete call sequence, discharging
the distinctness hypothesis there. -/
theorem c6_witness :
    ((execGate gateOpsW (gateInit [1, 2])).invokedNow ++
      (execGate gateOpsW (gateInit [1, 2])).invokedDeferred).Nodup :=
  (c6_gate_fifo gateOpsW [1, 2]).2.2.2 (by decide)

/-- Absence of a name among the keys of the transitions table is exactly a
failed lookup. -/
theorem lookupTable_eq_none (t : List (String × Nat)) (n : String) :
    lookupTable t n = none ↔ n ∉ t.map Prod.fst := by
  induction t with
  | nil => simp [lookupTable]
  | cons p rest ih =>
      rcases p with ⟨k, v⟩
      by_cases hk : k = n
      · simp [lookupTable, hk]
      · simp [lookupTable, hk, ih, Ne.symm hk]

/-- Erasing a name from the transitions table removes it. -/
theorem lookupTable_erase (t : List (String × Nat)) (n : String) :
    lookupTable (eraseTable t n) n = none := by
  induction t with
  | nil => rfl
  | cons p rest ih =>
      rcases p with ⟨k, v⟩
      by_cases hk : k = n <;>
        simp [eraseTable, List.filter_cons, hk, lookupTable] at ih ⊢ <;>
        exact ih

/-- `transitionComplete` removes the transition registered under the name. -/
theorem lookupTable_complete (s : TransState) (n : String) :
    lookupTable (transitionComplete s n).table n = none :=
  lookupTable_erase s.table n

/-- `delete` / `remoteDelete` leave no transition registered under the name. -/
theorem lookupTable_destroy (s : TransState) (n : String) :
    lookupTable (destroyTransition s n).table n = none := by
  unfold destroyTransition
  rcases ho : lookupTable s.table n with _ | v
  · simp [ho]
  · simp [ho, lookupTable_erase]

/-- Each table-touching operation preserves distinctness of the registered
record names. -/
theorem transStep_keysNodup (s : TransState) (op : TransOp)
    (h : (s.table.map Prod.fst).Nodup) :
    ((transStep s op).table.map Prod.fst).Nodup := by
  cases op with
  | upd n r hv =>
      cases r with
      | true => simpa [transStep, transitionsAfterUpdate] using h
      | false =>
          rcases hl : lookupTable s.table n with _ | v
          · simp only [transStep, transitionsAfterUpdate, Bool.false_eq_true,
              if_false, hl, List.map_cons, List.nodup_cons]
            exact ⟨(lookupTable_eq_none _ _).mp hl, h⟩
          · cases hv <;>
              simpa [transStep, transitionsAfterUpdate, hl] using h
  | complete n =>
      simp only [transStep, transitionComplete, eraseTable]
      exact ((List.filter_sublist _).map Prod.fst).nodup h
  | del n =>
      simp only [transStep, destroyTransition]
      split
      · simp only [eraseTable]
        exact ((List.filter_sublist _).map Prod.fst).nodup h
      · exact h
  | remoteDel n =>
      simp only [transStep, destroyTransition]
      split
      · simp only [eraseTable]
        exact ((List.filter_sublist _).map Prod.fst).nodup h
      · exact h

/-- Any sequence of table-touching operations preserves distinctness of the
registered record names. -/
theorem execTrans_keysNodup (ops : List TransOp) (s : TransState)
    (h : (s.table.map Prod.fst).Nodup) :
    ((execTrans ops s).table.map Prod.fst).Nodup := by
  induction ops generalizing s with
  | nil => exact h
  | cons op rest ih => exact ih (transStep s op) (transStep_keysNodup s op h)

/-- Running an extended sequence is one more step on the shorter run. -/
theorem execTrans_append (ops : List TransOp) (op : TransOp) (s : TransState) :
    execTrans (ops ++ [op]) s = transStep (execTrans ops s) op := by
  induction ops generalizing s with
  | nil => rfl
  | cons o rest ih => exact ih (transStep s o)

/-- C7: in every state the handler can reach from its initial empty table, the
transitions table registers each record name at most once; `update` creates a
transition only when none is present (an existing entry leaves the table
unchanged); and `transitionComplete`, `delete` and `remoteDelete` leave no
entry registered under the name they handle. -/
theorem c7_at_most_one_transition (ops : List TransOp) :
    ((execTrans ops transInit).table.map Prod.fst).Nodup
    ∧ (∀ recordName,
        lookupTable
          (execTrans (ops ++ [TransOp.complete recordName]) transInit).table
          recordName = none)
    ∧ (∀ recordName,
        lookupTable
          (execTrans (ops ++ [TransOp.del recordName]) transInit).table
          recordName = none)
    ∧ (∀ recordName,
        lookupTable
          (execTrans (ops ++ [TransOp.remoteDel recordName]) transInit).table
          recordName = none)
    ∧ (∀ s recordName hasVer,
        (lookupTable s.table recordName).isSome = true →
          transitionsAfterUpdate s recordName false hasVer = s) := by
  refine ⟨execTrans_keysNodup ops transInit (by simp [transInit]),
    ?_, ?_, ?_, ?_⟩
  · intro n
    rw [execTrans_append]
    exact lookupTable_complete _ n
  · intro n
    rw [execTrans_append]
    exact lookupTable_destroy _ n
  · intro n
    rw [execTrans_append]
    exact lookupTable_destroy _ n
  · intro s n hv hsome
    rcases Option.isSome_iff_exists.mp hsome with ⟨v, hval⟩
    cases hv <;> simp [transitionsAfterUpdate, hval]

/-- C7 witness: the no-new-transition clause applied at a concrete one-entry
table, discharging the lookup hypothesis there. -/
theorem c7_witness :
    transitionsAfterUpdate { table := [("a", 0)], nextId := 1 } "a" false false =
      { table := [("a", 0)], nextId := 1 } :=
  (c7_at_most_one_transition []).2.2.2.2 { table := [("a", 0)], nextId := 1 }
    "a" false (by decide)

end RecordHandlerModel
